import Mathlib

/-!
Shallow embedding of the Tegra186 GPIO driver (drivers/gpio/gpio-tegra186.c):
the register-file state, the per-port topology table, address translation,
the accessibility check, line control (direction, value, debounce), trigger
configuration, wake lookup and the chained interrupt demultiplexer, together
with theorems checking the specified properties.
-/

namespace Tegra186

/-- Register-file state of the memory-mapped windows: window index (the
source's reg_index into tegra_gpio->regs) and byte address to the stored
32-bit value. -/
abbrev Mem := Nat → Nat → Nat

/-- Read of a 32-bit register (__raw_readl). -/
def Mem.read (m : Mem) (r a : Nat) : Nat := m r a % 2 ^ 32

/-- Write of a 32-bit register (__raw_writel). -/
def Mem.write (m : Mem) (r a v : Nat) : Mem :=
  fun r' a' => if r' = r ∧ a' = a then v % 2 ^ 32 else m r' a'

/-- Register file with every register zero. -/
def zeroMem : Mem := fun _ _ => 0

/-! Register layout constants, from the macro block at the top of the
source file. -/

def GPIO_ENB_CONFIG_REG : Nat := 0x00
def GPIO_ENB_BIT : Nat := 0x1
def GPIO_INOUT_BIT : Nat := 0x2
def GPIO_TRG_TYPE_BIT_OFFSET : Nat := 0x2
def GPIO_TRG_LVL_BIT : Nat := 0x10
def GPIO_DEB_FUNC_BIT : Nat := 0x20
def GPIO_INT_FUNC_BIT : Nat := 0x40
def GPIO_DBC_THRES_REG : Nat := 0x04
def GPIO_INPUT_REG : Nat := 0x08
def GPIO_OUT_CTRL_REG : Nat := 0x0c
def GPIO_OUT_VAL_REG : Nat := 0x10
def GPIO_INT_CLEAR_REG : Nat := 0x14
def GPIO_REG_DIFF : Nat := 0x20
def GPIO_SCR_REG : Nat := 0x04
def GPIO_SCR_DIFF : Nat := 0x08
def GPIO_INT_LVL_LEVEL_TRIGGER : Nat := 0x1
def GPIO_INT_LVL_SINGLE_EDGE_TRIGGER : Nat := 0x2
def GPIO_INT_LVL_BOTH_EDGE_TRIGGER : Nat := 0x3
def TRIGGER_LEVEL_LOW : Nat := 0x0
def TRIGGER_LEVEL_HIGH : Nat := 0x1
def GPIO_INT_STATUS_OFFSET : Nat := 0x100
def GPIO_STATUS_G1 : Nat := 0x04

/-- GPIO_FULL_ACCESS: the four security capability bits, write-enable
(bit 28), read-enable (bit 27), group-1 read (bit 1) and group-1 write
(bit 9). -/
def GPIO_FULL_ACCESS : Nat := (1 <<< 28) ||| (1 <<< 27) ||| (1 <<< 1) ||| (1 <<< 9)

/-- Errno values used by the driver (from the kernel's errno tables). -/
def EINVAL : Int := 22
def EBUSY : Int := 16

/-- Interrupt trigger-type request constants (linux/irq.h). -/
def IRQ_TYPE_EDGE_RISING : Nat := 1
def IRQ_TYPE_EDGE_FALLING : Nat := 2
def IRQ_TYPE_EDGE_BOTH : Nat := 3
def IRQ_TYPE_LEVEL_HIGH : Nat := 4
def IRQ_TYPE_LEVEL_LOW : Nat := 8
def IRQ_TYPE_SENSE_MASK : Nat := 0xF

/-- GPIO_PORT(g) = g >> 3. -/
def GPIO_PORT (g : Nat) : Nat := g >>> 3

/-- GPIO_PIN(g) = g & 0x7. -/
def GPIO_PIN (g : Nat) : Nat := g &&& 0x7

/-- Per-port descriptor, mirroring struct tegra_gpio_port_chip_info. The
scr_offset field is an int in the source (and is negative for the absent
port DD). -/
structure PortInfo where
  cont_id : Int
  cont_index : Int
  valid_pins : Nat
  reg_index : Nat
  scr_offset : Int
  reg_offset : Nat

/-- TEGRA_GPIO_PORT_INFO initializer for main-domain ports: window 0,
scr_offset = cid * 0x1000 + cind * 0x40, reg_offset = 0x10000 +
cid * 0x1000 + cind * 0x200 (stored through a u32 field). -/
def mkMainPort (cid cind : Int) (npins : Nat) : PortInfo :=
  { cont_id := cid
    cont_index := cind
    valid_pins := npins
    reg_index := 0
    scr_offset := cid * 0x1000 + cind * 0x40
    reg_offset := ((0x10000 + cid * 0x1000 + cind * 0x200) % 2 ^ 32).toNat }

/-- TEGRA_AON_GPIO_PORT_INFO initializer for always-on-domain ports:
window 1, scr_offset = cind * 0x40, reg_offset = 0x1000 + cind * 0x200. -/
def mkAonPort (cid cind : Int) (npins : Nat) : PortInfo :=
  { cont_id := cid
    cont_index := cind
    valid_pins := npins
    reg_index := 1
    scr_offset := cind * 0x40
    reg_offset := ((0x1000 + cind * 0x200) % 2 ^ 32).toNat }

/-- Topology table, from the source's tegra_gpio_cinfo designated-initializer
array. The numeric indices are the TEGRA_GPIO_BANK_ID_* constants of the
dt-bindings header (which is outside the excerpt); they number the ports
alphabetically A..Z then AA..FF as 0..31, the same order in which the
source lists the initializers. -/
def tegra_gpio_cinfo : List PortInfo := [
  mkMainPort 2 0 7,     -- A
  mkMainPort 3 0 7,     -- B
  mkMainPort 3 1 7,     -- C
  mkMainPort 3 2 6,     -- D
  mkMainPort 2 1 8,     -- E
  mkMainPort 2 2 6,     -- F
  mkMainPort 4 1 6,     -- G
  mkMainPort 1 0 7,     -- H
  mkMainPort 0 4 8,     -- I
  mkMainPort 5 0 8,     -- J
  mkMainPort 5 1 1,     -- K
  mkMainPort 1 1 8,     -- L
  mkMainPort 5 3 6,     -- M
  mkMainPort 0 0 7,     -- N
  mkMainPort 0 1 4,     -- O
  mkMainPort 4 0 7,     -- P
  mkMainPort 0 2 6,     -- Q
  mkMainPort 0 5 6,     -- R
  mkAonPort 6 1 5,      -- S
  mkMainPort 0 3 4,     -- T
  mkAonPort 6 2 6,      -- U
  mkAonPort 6 4 8,      -- V
  mkAonPort 6 5 8,      -- W
  mkMainPort 1 2 8,     -- X
  mkMainPort 1 3 7,     -- Y
  mkAonPort 6 7 4,      -- Z
  mkAonPort 6 6 8,      -- AA
  mkMainPort 2 3 2,     -- BB
  mkMainPort 5 2 4,     -- CC
  mkMainPort (-1) (-1) 0, -- DD (absent on this chip variant)
  mkAonPort 6 3 3,      -- EE
  mkAonPort 6 0 5     ] -- FF

/-- Table access (array indexing in the source; the default is never used
by in-range pins). -/
def cinfo (port : Nat) : PortInfo :=
  tegra_gpio_cinfo.getD port (mkMainPort (-1) (-1) 0)

/-- Byte address of a per-pin register as computed by tegra_gpio_readl,
tegra_gpio_writel and tegra_gpio_update: u32 addr = port's reg_offset;
addr += GPIO_REG_DIFF * pin + reg_offset. -/
def regAddr (gpio reg_offset : Nat) : Nat :=
  ((cinfo (GPIO_PORT gpio)).reg_offset + GPIO_REG_DIFF * GPIO_PIN gpio + reg_offset) % 2 ^ 32

/-- tegra_gpio_readl. -/
def tegra_gpio_readl (m : Mem) (gpio reg_offset : Nat) : Nat :=
  m.read (cinfo (GPIO_PORT gpio)).reg_index (regAddr gpio reg_offset)

/-- tegra_gpio_writel. -/
def tegra_gpio_writel (m : Mem) (v gpio reg_offset : Nat) : Mem :=
  m.write (cinfo (GPIO_PORT gpio)).reg_index (regAddr gpio reg_offset) v

/-- tegra_gpio_update: read-modify-write, rval = (rval & ~mask) | (val & mask)
in 32-bit arithmetic. -/
def tegra_gpio_update (m : Mem) (gpio reg_offset mask v : Nat) : Mem :=
  let rval := tegra_gpio_readl m gpio reg_offset
  tegra_gpio_writel m ((rval &&& (0xFFFFFFFF ^^^ mask)) ||| (v &&& mask)) gpio reg_offset

/-- Security-configuration register address read by is_gpio_accessible:
the port's scr_offset (int field copied into a u32 local) plus
pin * GPIO_SCR_DIFF + GPIO_SCR_REG. -/
def scrAddr (gpio : Nat) : Nat :=
  ((cinfo (GPIO_PORT gpio)).scr_offset % 2 ^ 32).toNat
    + GPIO_PIN gpio * GPIO_SCR_DIFF + GPIO_SCR_REG

/-- is_gpio_accessible: false when the pin-in-port is at or beyond the
port's wired-pin count, false when the port's controller id is negative,
else true iff the security register holds all GPIO_FULL_ACCESS bits. -/
def is_gpio_accessible (m : Mem) (offset : Nat) : Bool :=
  let port := GPIO_PORT offset
  let pin := GPIO_PIN offset
  if pin ≥ (cinfo port).valid_pins then false
  else if (cinfo port).cont_id < 0 then false
  else ((m.read (cinfo port).reg_index (scrAddr offset)) &&& GPIO_FULL_ACCESS)
        == GPIO_FULL_ACCESS

/-- tegra_gpio_enable: set the enable bit of the configuration register. -/
def tegra_gpio_enable (m : Mem) (gpio : Nat) : Mem :=
  tegra_gpio_update m gpio GPIO_ENB_CONFIG_REG 0x1 0x1

/-- tegra_gpio_disable. -/
def tegra_gpio_disable (m : Mem) (gpio : Nat) : Mem :=
  tegra_gpio_update m gpio GPIO_ENB_CONFIG_REG 0x1 0x0

/-- tegra_gpio_request: the pinctrl collaborator's result is abstracted as
the pinctrl_ret parameter; an inaccessible pin yields -EBUSY without
calling it. -/
def tegra_gpio_request (m : Mem) (pinctrl_ret : Int) (offset : Nat) : Int :=
  if is_gpio_accessible m offset then pinctrl_ret else -EBUSY

/-- tegra_gpio_set: write 0/1 to the output-value register, then 0 to the
output-control register. No accessibility check is performed. -/
def tegra_gpio_set (m : Mem) (offset : Nat) (value : Int) : Mem :=
  let val : Nat := if value = 0 then 0x0 else 0x1
  tegra_gpio_writel (tegra_gpio_writel m val offset GPIO_OUT_VAL_REG)
    0 offset GPIO_OUT_CTRL_REG

/-- tegra_gpio_get: the output-value register's low bit when the direction
bit of the configuration register is set, the input register's low bit
otherwise. -/
def tegra_gpio_get (m : Mem) (offset : Nat) : Nat :=
  let val := tegra_gpio_readl m offset GPIO_ENB_CONFIG_REG
  if val &&& GPIO_INOUT_BIT ≠ 0 then
    tegra_gpio_readl m offset GPIO_OUT_VAL_REG &&& 0x1
  else
    tegra_gpio_readl m offset GPIO_INPUT_REG &&& 0x1

/-- set_gpio_direction_mode: read-modify-write of the direction bit. -/
def set_gpio_direction_mode (m : Mem) (offset : Nat) (mode : Bool) : Mem :=
  let val := tegra_gpio_readl m offset GPIO_ENB_CONFIG_REG
  let val := if mode then val ||| GPIO_INOUT_BIT
             else val &&& (0xFFFFFFFF ^^^ GPIO_INOUT_BIT)
  tegra_gpio_writel m val offset GPIO_ENB_CONFIG_REG

/-- Result of a direction-change operation: return value, whether the
pinctrl failure path was logged (dev_err), and the register state. -/
structure DirResult where
  ret : Int
  logged : Bool
  mem : Mem

/-- tegra_gpio_direction_input: clear the direction bit, enable the pin,
then call the pinctrl collaborator (abstracted as pinctrl_ret); its
failure is logged and the function returns 0 unconditionally. -/
def tegra_gpio_direction_input (m : Mem) (offset : Nat) (pinctrl_ret : Int) :
    DirResult :=
  let m := set_gpio_direction_mode m offset false
  let m := tegra_gpio_enable m offset
  { ret := 0, logged := decide (pinctrl_ret < 0), mem := m }

/-- tegra_gpio_direction_output: write the value, set the direction bit,
enable the pin, then call the pinctrl collaborator; its failure is logged
and the function returns 0 unconditionally. -/
def tegra_gpio_direction_output (m : Mem) (offset : Nat)
    (value pinctrl_ret : Int) : DirResult :=
  let m := tegra_gpio_set m offset value
  let m := set_gpio_direction_mode m offset true
  let m := tegra_gpio_enable m offset
  { ret := 0, logged := decide (pinctrl_ret < 0), mem := m }

/-- DIV_ROUND_UP(n, d) = (n + d - 1) / d. -/
def DIV_ROUND_UP (n d : Nat) : Nat := (n + d - 1) / d

/-- tegra_gpio_set_debounce. The second read-modify-write faithfully passes
GPIO_DEB_FUNC_BIT (0x20) in the register-offset argument slot with mask 0x5
and value 0x1, exactly as the source does. -/
def tegra_gpio_set_debounce (m : Mem) (offset debounce : Nat) : Int × Mem :=
  let dbc_ms := DIV_ROUND_UP debounce 1000
  let m := tegra_gpio_update m offset GPIO_ENB_CONFIG_REG 0x1 0x1
  let m := tegra_gpio_update m offset GPIO_DEB_FUNC_BIT 0x5 0x1
  let m := tegra_gpio_writel m dbc_ms offset GPIO_DBC_THRES_REG
  (0, m)

/-- tegra_gpio_is_enabled: the two output parameters are modelled by
passing their prior (uninitialized) values in and returning the values
they hold afterwards, next to the return code. -/
def tegra_gpio_is_enabled (m : Mem) (gpio : Nat) (is_gpio is_input : Nat) :
    Int × Nat × Nat :=
  if is_gpio_accessible m gpio then
    (0, tegra_gpio_readl m gpio GPIO_ENB_CONFIG_REG &&& 0x1,
        tegra_gpio_readl m gpio GPIO_OUT_CTRL_REG)
  else
    (0, is_gpio, is_input)

/-- Switch of tegra_gpio_irq_set_type: the requested type (already masked
with IRQ_TYPE_SENSE_MASK) to its (trg_type, lvl_type) pair; none for the
rejected default case. Both locals start at 0, so IRQ_TYPE_EDGE_BOTH
leaves trg_type at 0. -/
def triggerDecode (t : Nat) : Option (Nat × Nat) :=
  if t = IRQ_TYPE_EDGE_RISING then
    some (TRIGGER_LEVEL_HIGH, GPIO_INT_LVL_SINGLE_EDGE_TRIGGER)
  else if t = IRQ_TYPE_EDGE_FALLING then
    some (TRIGGER_LEVEL_LOW, GPIO_INT_LVL_SINGLE_EDGE_TRIGGER)
  else if t = IRQ_TYPE_EDGE_BOTH then
    some (0, GPIO_INT_LVL_BOTH_EDGE_TRIGGER)
  else if t = IRQ_TYPE_LEVEL_HIGH then
    some (TRIGGER_LEVEL_HIGH, GPIO_INT_LVL_LEVEL_TRIGGER)
  else if t = IRQ_TYPE_LEVEL_LOW then
    some (TRIGGER_LEVEL_LOW, GPIO_INT_LVL_LEVEL_TRIGGER)
  else none

/-- tegra_gpio_irq_set_type: reject unknown types with -EINVAL before any
register write; otherwise clear the 2-bit trigger-kind field (bits 2-3)
and the polarity bit (bit 4) of the configuration register, OR in the new
values shifted into place, write it back, and enable the pin. The handler
discipline selection and the wake-type propagation touch no registers and
are omitted from the state. -/
def tegra_gpio_irq_set_type (m : Mem) (gpio ty : Nat) : Int × Mem :=
  match triggerDecode (ty &&& IRQ_TYPE_SENSE_MASK) with
  | none => (-EINVAL, m)
  | some (trg_type, lvl_type) =>
    let trg := trg_type <<< 0x4
    let lvl := lvl_type <<< 0x2
    let val := tegra_gpio_readl m gpio GPIO_ENB_CONFIG_REG
    let val := (val &&&
        (0xFFFFFFFF ^^^ ((0x3 <<< GPIO_TRG_TYPE_BIT_OFFSET) ||| GPIO_TRG_LVL_BIT)))
      ||| trg ||| lvl
    let m := tegra_gpio_writel m val gpio GPIO_ENB_CONFIG_REG
    let m := tegra_gpio_enable m gpio
    (0, m)

/-- TEGRA_GPIO(bank, offset) = bank * 8 + offset, with the alphabetical
TEGRA_GPIO_BANK_ID numbering described at tegra_gpio_cinfo. -/
def TEGRA_GPIO (bank offset : Nat) : Int := bank * 8 + offset

/-- Wake table tegra186_gpio_wakes: wake-slot index to pin identifier,
-EINVAL marking an unassigned slot. Bank letters of the source are noted
per entry. -/
def tegra186_gpio_wakes : List Int := [
  TEGRA_GPIO 0 6,    -- wake0:  A 6
  TEGRA_GPIO 0 2,    -- wake1:  A 2
  TEGRA_GPIO 0 5,    -- wake2:  A 5
  TEGRA_GPIO 3 3,    -- wake3:  D 3
  TEGRA_GPIO 4 3,    -- wake4:  E 3
  TEGRA_GPIO 6 3,    -- wake5:  G 3
  -EINVAL,           -- wake6
  TEGRA_GPIO 1 3,    -- wake7:  B 3
  TEGRA_GPIO 1 5,    -- wake8:  B 5
  TEGRA_GPIO 2 0,    -- wake9:  C 0
  TEGRA_GPIO 18 2,   -- wake10: S 2
  TEGRA_GPIO 7 2,    -- wake11: H 2
  TEGRA_GPIO 9 5,    -- wake12: J 5
  TEGRA_GPIO 9 6,    -- wake13: J 6
  TEGRA_GPIO 9 7,    -- wake14: J 7
  TEGRA_GPIO 10 0,   -- wake15: K 0
  TEGRA_GPIO 16 1,   -- wake16: Q 1
  TEGRA_GPIO 5 4,    -- wake17: F 4
  TEGRA_GPIO 12 5,   -- wake18: M 5
  TEGRA_GPIO 15 0,   -- wake19: P 0
  TEGRA_GPIO 15 2,   -- wake20: P 2
  TEGRA_GPIO 15 1,   -- wake21: P 1
  TEGRA_GPIO 14 3,   -- wake22: O 3
  TEGRA_GPIO 17 5,   -- wake23: R 5
  -EINVAL,           -- wake24
  TEGRA_GPIO 18 3,   -- wake25: S 3
  TEGRA_GPIO 18 4,   -- wake26: S 4
  TEGRA_GPIO 18 1,   -- wake27: S 1
  TEGRA_GPIO 5 2,    -- wake28: F 2
  TEGRA_GPIO 31 0,   -- wake29: FF 0
  TEGRA_GPIO 31 4,   -- wake30: FF 4
  TEGRA_GPIO 2 6,    -- wake31: C 6
  TEGRA_GPIO 22 2,   -- wake32: W 2
  TEGRA_GPIO 22 5,   -- wake33: W 5
  TEGRA_GPIO 22 1,   -- wake34: W 1
  TEGRA_GPIO 21 0,   -- wake35: V 0
  TEGRA_GPIO 21 1,   -- wake36: V 1
  TEGRA_GPIO 21 2,   -- wake37: V 2
  TEGRA_GPIO 21 3,   -- wake38: V 3
  TEGRA_GPIO 21 4,   -- wake39: V 4
  TEGRA_GPIO 21 5,   -- wake40: V 5
  TEGRA_GPIO 30 0,   -- wake41: EE 0
  TEGRA_GPIO 25 1,   -- wake42: Z 1
  TEGRA_GPIO 25 3,   -- wake43: Z 3
  TEGRA_GPIO 26 0,   -- wake44: AA 0
  TEGRA_GPIO 26 1,   -- wake45: AA 1
  TEGRA_GPIO 26 2,   -- wake46: AA 2
  TEGRA_GPIO 26 3,   -- wake47: AA 3
  TEGRA_GPIO 26 4,   -- wake48: AA 4
  TEGRA_GPIO 26 5,   -- wake49: AA 5
  TEGRA_GPIO 26 6,   -- wake50: AA 6
  TEGRA_GPIO 26 7,   -- wake51: AA 7
  TEGRA_GPIO 23 3,   -- wake52: X 3
  TEGRA_GPIO 23 7,   -- wake53: X 7
  TEGRA_GPIO 24 0,   -- wake54: Y 0
  TEGRA_GPIO 24 1,   -- wake55: Y 1
  TEGRA_GPIO 24 2,   -- wake56: Y 2
  TEGRA_GPIO 24 5,   -- wake57: Y 5
  TEGRA_GPIO 24 6,   -- wake58: Y 6
  TEGRA_GPIO 11 1,   -- wake59: L 1
  TEGRA_GPIO 11 3,   -- wake60: L 3
  TEGRA_GPIO 11 4,   -- wake61: L 4
  TEGRA_GPIO 11 5,   -- wake62: L 5
  TEGRA_GPIO 8 4,    -- wake63: I 4
  TEGRA_GPIO 8 6,    -- wake64: I 6
  TEGRA_GPIO 25 0,   -- wake65: Z 0
  TEGRA_GPIO 25 2,   -- wake66: Z 2
  TEGRA_GPIO 31 1,   -- wake67: FF 1
  TEGRA_GPIO 31 2,   -- wake68: FF 2
  TEGRA_GPIO 31 3,   -- wake69: FF 3
  TEGRA_GPIO 7 3,    -- wake70: H 3
  TEGRA_GPIO 15 5,   -- wake71: P 5
  -EINVAL, -EINVAL, -EINVAL, -EINVAL, -EINVAL, -EINVAL,   -- wake72..77
  -EINVAL, -EINVAL, -EINVAL, -EINVAL, -EINVAL, -EINVAL,   -- wake78..83
  -EINVAL, -EINVAL, -EINVAL, -EINVAL, -EINVAL, -EINVAL,   -- wake84..89
  -EINVAL, -EINVAL, -EINVAL, -EINVAL, -EINVAL, -EINVAL ]  -- wake90..95

/-- Linear scan of tegra186_gpio_to_wake: first index whose entry equals
the pin, else -EINVAL. -/
def wakeLookup : List Int → Nat → Int → Int
  | [], _, _ => -EINVAL
  | x :: xs, i, gpio => if x = gpio then (i : Int) else wakeLookup xs (i + 1) gpio

/-- tegra186_gpio_to_wake. -/
def tegra186_gpio_to_wake (gpio : Int) : Int :=
  wakeLookup tegra186_gpio_wakes 0 gpio

/-- tegra_gpio_irq_set_wake: the wake-event registry collaborator is
abstracted as a function from (slot, enable) to its return code; the
second component records the registry calls made. A negative wake lookup
is returned as-is with no registry call; otherwise the registry's return
value is passed through (and logged when nonzero). -/
def tegra_gpio_irq_set_wake (registry : Nat → Bool → Int) (gpio : Int)
    (enable : Bool) : Int × List (Nat × Bool) :=
  let wake := tegra186_gpio_to_wake gpio
  if wake < 0 then (wake, [])
  else (registry wake.toNat enable, [(wake.toNat, enable)])

/-- Port-slot map built at the top of tegra_gpio_irq_handler_desc: slots
start at none (-1 in the source) and every table entry whose cont_id
matches the controller claims its cont_index slot, later entries
overriding earlier ones as in the source's scan. -/
def port_map (c slot : Nat) : Option Nat :=
  (List.range 32).foldl
    (fun acc i =>
      if (cinfo i).cont_id = (c : Int) ∧ (cinfo i).cont_index = (slot : Int) then
        some i
      else acc)
    none

/-- Pending-interrupt-status bitmap read of the demultiplexer: the word at
the port's general block offset plus GPIO_INT_STATUS_OFFSET plus
GPIO_STATUS_G1. -/
def portPending (m : Mem) (port : Nat) : Nat :=
  m.read (cinfo port).reg_index
    ((cinfo port).reg_offset + GPIO_INT_STATUS_OFFSET + GPIO_STATUS_G1)

/-- Dispatches of one port slot: for_each_set_bit over the low 8 bits of
the pending bitmap, ascending, each dispatching pin port * 8 + bit. -/
def dispatchSegment (m : Mem) (c slot : Nat) : List Nat :=
  match port_map c slot with
  | none => []
  | some port =>
    (List.range 8).filterMap fun pin =>
      if (portPending m port).testBit pin then some (port * 8 + pin) else none

/-- Dispatch sequence of one tegra_gpio_irq_handler_desc invocation for a
controller: slots 0..7 in ascending order, each slot's pending bits in
ascending order. -/
def dispatchList (m : Mem) (c : Nat) : List Nat :=
  ((List.range 8).map (dispatchSegment m c)).flatten

/-- Slot-major dispatch key of a pin: its port's index within the
controller, then its bit index. -/
def dispatchKey (p : Nat) : Int :=
  (cinfo (GPIO_PORT p)).cont_index * 8 + (GPIO_PIN p : Int)

/-- Register file for the C4 scenario: pending bitmap 0b10010001 on global
port 2 (controller 3, slot 1, window 0, block offset 0x13200), all other
registers zero. -/
def demoPendingMem : Mem := fun r a =>
  if r = 0 ∧ a = 0x13200 + 0x100 + 0x04 then 0x91 else 0

/-- Register file in which pin 0 (port A, window 0, block offset 0x12000,
scr block offset 0x2000) is fully accessible and configured as an output:
its configuration register holds the direction bit and its security
register holds all four capability bits. -/
def outputPinMem : Mem := fun r a =>
  if r = 0 ∧ a = 0x12000 then GPIO_INOUT_BIT
  else if r = 0 ∧ a = 0x2004 then GPIO_FULL_ACCESS
  else 0

/-- Wake-event registry stub that always fails with -5. -/
def demoRegistry : Nat → Bool → Int := fun _ _ => -5

/-! Helper lemmas about the embedding. -/

lemma and_seven (g : Nat) : g &&& 7 = g % 8 := by
  simpa using Nat.and_pow_two_sub_one_eq_mod g 3

lemma read_lt (m : Mem) (r a : Nat) : m.read r a < 2 ^ 32 :=
  Nat.mod_lt _ (by norm_num)

lemma read_write_self (m : Mem) (r a v : Nat) :
    (m.write r a v).read r a = v % 2 ^ 32 := by
  have h : (2:Nat) ^ 32 = 4294967296 := by norm_num
  show (if r = r ∧ a = a then v % 2 ^ 32 else m r a) % 2 ^ 32 = v % 2 ^ 32
  rw [if_pos ⟨rfl, rfl⟩, h]
  omega

lemma read_write_ne (m : Mem) {r a r' a' : Nat} (v : Nat)
    (h : r' ≠ r ∨ a' ≠ a) :
    (m.write r a v).read r' a' = m.read r' a' := by
  have hne : ¬(r' = r ∧ a' = a) := by tauto
  simp only [Mem.read, Mem.write, if_neg hne]

lemma reg_offset_le (p : Nat) : (cinfo p).reg_offset ≤ 0x15600 := by
  rcases Nat.lt_or_ge p 32 with h | h
  · exact (by decide : ∀ q < 32, (cinfo q).reg_offset ≤ 0x15600) p h
  · have hlen : tegra_gpio_cinfo.length ≤ p := by
      simpa using h
    unfold cinfo
    rw [List.getD_eq_getElem?_getD, List.getElem?_eq_none hlen]
    decide

lemma regAddr_eq (g off : Nat) (hoff : off ≤ 0x200) :
    regAddr g off = (cinfo (GPIO_PORT g)).reg_offset + 0x20 * (g % 8) + off := by
  have h1 := reg_offset_le (GPIO_PORT g)
  have h2 : g &&& 7 = g % 8 := and_seven g
  have h3 : g % 8 < 8 := Nat.mod_lt _ (by norm_num)
  have hp : (2:Nat) ^ 32 = 4294967296 := by norm_num
  unfold regAddr GPIO_REG_DIFF GPIO_PIN
  rw [show (0x7 : Nat) = 7 from rfl, h2, hp]
  omega

lemma readl_writel_self (m : Mem) (v g off : Nat) :
    tegra_gpio_readl (tegra_gpio_writel m v g off) g off = v % 2 ^ 32 := by
  unfold tegra_gpio_readl tegra_gpio_writel
  exact read_write_self m _ _ v

lemma readl_writel_ne (m : Mem) (v g off off' : Nat)
    (hoff : off ≤ 0x200) (hoff' : off' ≤ 0x200) (h : off ≠ off') :
    tegra_gpio_readl (tegra_gpio_writel m v g off) g off' =
      tegra_gpio_readl m g off' := by
  unfold tegra_gpio_readl tegra_gpio_writel
  refine read_write_ne m v (Or.inr ?_)
  rw [regAddr_eq g off hoff, regAddr_eq g off' hoff']
  omega

lemma shr2_and3 (v : Nat) :
    (v >>> 2) &&& 3 = (v.testBit 2).toNat + 2 * (v.testBit 3).toNat := by
  have key : (v >>> 2) &&& 3 = v / 4 % 4 := by
    have h := Nat.and_pow_two_sub_one_eq_mod (v >>> 2) 2
    norm_num at h
    rw [h, Nat.shiftRight_eq_div_pow]
  rw [key, Nat.testBit_to_div_mod, Nat.testBit_to_div_mod]
  norm_num
  rcases Nat.mod_two_eq_zero_or_one (v / 4) with h | h <;>
    rcases Nat.mod_two_eq_zero_or_one (v / 8) with h' | h' <;>
      simp [h, h'] <;> omega

lemma shr4_and1 (v : Nat) : (v >>> 4) &&& 1 = (v.testBit 4).toNat := by
  rw [Nat.and_one_is_mod, Nat.shiftRight_eq_div_pow, Nat.testBit_to_div_mod]
  norm_num
  rcases Nat.mod_two_eq_zero_or_one (v / 16) with h | h <;> simp [h]

lemma and_two_ne_zero (v : Nat) : (v &&& 2 ≠ 0) ↔ v.testBit 1 = true := by
  have h := Nat.and_two_pow v 1
  norm_num at h
  rw [h]
  cases hb : v.testBit 1 <;> simp [hb]

lemma full_access_iff (v : Nat) :
    (v &&& GPIO_FULL_ACCESS = GPIO_FULL_ACCESS) ↔
      (v.testBit 28 = true ∧ v.testBit 27 = true ∧
       v.testBit 1 = true ∧ v.testBit 9 = true) := by
  constructor
  · intro h
    have h28 := congrArg (Nat.testBit · 28) h
    have h27 := congrArg (Nat.testBit · 27) h
    have h1 := congrArg (Nat.testBit · 1) h
    have h9 := congrArg (Nat.testBit · 9) h
    simp only [Nat.testBit_land,
      show GPIO_FULL_ACCESS.testBit 28 = true from by decide,
      show GPIO_FULL_ACCESS.testBit 27 = true from by decide,
      show GPIO_FULL_ACCESS.testBit 1 = true from by decide,
      show GPIO_FULL_ACCESS.testBit 9 = true from by decide,
      Bool.and_true] at h28 h27 h1 h9
    exact ⟨h28, h27, h1, h9⟩
  · rintro ⟨h28, h27, h1, h9⟩
    apply Nat.eq_of_testBit_eq
    intro i
    rw [Nat.testBit_land]
    cases hb : GPIO_FULL_ACCESS.testBit i with
    | false => simp
    | true =>
      have hi : i < 29 := by
        by_contra hge
        rw [Nat.testBit_lt_two_pow
          (lt_of_lt_of_le (by decide : GPIO_FULL_ACCESS < 2 ^ 29)
            (Nat.pow_le_pow_right (by norm_num) (by omega)))] at hb
        exact Bool.noConfusion hb
      have hcases : i = 28 ∨ i = 27 ∨ i = 1 ∨ i = 9 := by
        by_contra hc
        push_neg at hc
        have hfalse := (by decide :
          ∀ j < 29, ¬(j = 28 ∨ j = 27 ∨ j = 1 ∨ j = 9) →
            GPIO_FULL_ACCESS.testBit j = false) i hi (by tauto)
        rw [hfalse] at hb
        exact Bool.noConfusion hb
      rcases hcases with rfl | rfl | rfl | rfl <;>
        simp [h28, h27, h1, h9, hb]

/-! Claim theorems. -/

/-- C2: is_gpio_accessible returns false for every register-file content
(hence without depending on any hardware read) when the pin-in-port is at
or beyond the port's wired-pin count or the port's controller id is the
absent sentinel; otherwise its result is true exactly when the four
capability bits (write-enable 28, read-enable 27, group-read 1,
group-write 9) of the security-configuration register are all set. -/
theorem c2_accessibility_gate (pin : Nat) (hpin : pin < 256) (m : Mem) :
    ((GPIO_PIN pin ≥ (cinfo (GPIO_PORT pin)).valid_pins ∨
        (cinfo (GPIO_PORT pin)).cont_id < 0) →
      is_gpio_accessible m pin = false) ∧
    (GPIO_PIN pin < (cinfo (GPIO_PORT pin)).valid_pins →
      0 ≤ (cinfo (GPIO_PORT pin)).cont_id →
      (is_gpio_accessible m pin = true ↔
        ((m.read (cinfo (GPIO_PORT pin)).reg_index (scrAddr pin)).testBit 28 = true ∧
         (m.read (cinfo (GPIO_PORT pin)).reg_index (scrAddr pin)).testBit 27 = true ∧
         (m.read (cinfo (GPIO_PORT pin)).reg_index (scrAddr pin)).testBit 1 = true ∧
         (m.read (cinfo (GPIO_PORT pin)).reg_index (scrAddr pin)).testBit 9 = true))) := by
  constructor
  · intro h
    unfold is_gpio_accessible
    rcases h with h | h
    · rw [if_pos h]
    · by_cases h2 : GPIO_PIN pin ≥ (cinfo (GPIO_PORT pin)).valid_pins
      · rw [if_pos h2]
      · rw [if_neg h2, if_pos h]
  · intro h1 h2
    unfold is_gpio_accessible
    rw [if_neg (by omega), if_neg (by omega), beq_iff_eq]
    exact full_access_iff _

/-- C2 witness: pin 7 exceeds port A's wired count of 7 and is reported
inaccessible on the all-zero register file; pin 0 with full capability
bits is reported accessible. -/
theorem c2_accessibility_gate_witness :
    is_gpio_accessible zeroMem 7 = false ∧
    is_gpio_accessible outputPinMem 0 = true :=
  ⟨(c2_accessibility_gate 7 (by decide) zeroMem).1 (Or.inl (by decide)),
   ((c2_accessibility_gate 0 (by decide) outputPinMem).2 (by decide)
      (by decide)).2 (by decide)⟩

/-- C9: the per-pin register address is the port's general block offset
plus (pin mod 8) * 0x20 plus the register offset, and, whenever the
accessibility check reaches its hardware read, the security address is the
port's security block offset plus (pin mod 8) * 0x08 plus 0x04. -/
theorem c9_address_translation (gpio off : Nat) (hg : gpio < 256)
    (hoff : off < 0x20) :
    regAddr gpio off =
      (cinfo (gpio >>> 3)).reg_offset + (gpio % 8) * 0x20 + off ∧
    (GPIO_PIN gpio < (cinfo (GPIO_PORT gpio)).valid_pins →
      scrAddr gpio =
        (cinfo (gpio >>> 3)).scr_offset.toNat + (gpio % 8) * 0x08 + 0x04) := by
  constructor
  · rw [regAddr_eq gpio off (by omega)]
    unfold GPIO_PORT
    ring
  · intro hvalid
    have hport : GPIO_PORT gpio < 32 := by
      unfold GPIO_PORT
      rw [Nat.shiftRight_eq_div_pow]
      omega
    have hpos : 0 < (cinfo (GPIO_PORT gpio)).valid_pins := by omega
    have hscr : 0 ≤ (cinfo (GPIO_PORT gpio)).scr_offset ∧
        (cinfo (GPIO_PORT gpio)).scr_offset < 2 ^ 32 :=
      (by decide : ∀ q < 32, 0 < (cinfo q).valid_pins →
        0 ≤ (cinfo q).scr_offset ∧ (cinfo q).scr_offset < 2 ^ 32)
        (GPIO_PORT gpio) hport hpos
    show ((cinfo (GPIO_PORT gpio)).scr_offset % 2 ^ 32).toNat
        + GPIO_PIN gpio * GPIO_SCR_DIFF + GPIO_SCR_REG
      = (cinfo (GPIO_PORT gpio)).scr_offset.toNat + gpio % 8 * 0x08 + 0x04
    rw [Int.emod_eq_of_lt hscr.1 hscr.2,
      show GPIO_PIN gpio = gpio % 8 from and_seven gpio]
    all_goals (unfold GPIO_SCR_DIFF GPIO_SCR_REG; omega)

/-- C9 witness at pin 10 (port B, pin-in-port 2) and register offset 0x14. -/
theorem c9_address_translation_witness :
    regAddr 10 0x14 =
      (cinfo (10 >>> 3)).reg_offset + (10 % 8) * 0x20 + 0x14 ∧
    scrAddr 10 =
      (cinfo (10 >>> 3)).scr_offset.toNat + (10 % 8) * 0x08 + 0x04 :=
  ⟨(c9_address_translation 10 0x14 (by decide) (by decide)).1,
   (c9_address_translation 10 0x14 (by decide) (by decide)).2 (by decide)⟩

/-- C10: tegra_gpio_is_enabled returns 0 for every pin, and on an
inaccessible pin it leaves both output parameters at their prior
(uninitialized) values, so the return code cannot distinguish the two
cases. -/
theorem c10_is_enabled_return (m : Mem) (gpio a b : Nat) :
    (tegra_gpio_is_enabled m gpio a b).1 = 0 ∧
    (is_gpio_accessible m gpio = false →
      tegra_gpio_is_enabled m gpio a b = (0, a, b)) := by
  unfold tegra_gpio_is_enabled
  constructor
  · split <;> rfl
  · intro h
    rw [if_neg (by simp [h])]

/-- C10 witness: inaccessible pin 7 returns 0 and passes the junk values
5 and 9 through unchanged. -/
theorem c10_is_enabled_return_witness :
    tegra_gpio_is_enabled zeroMem 7 5 9 = (0, 5, 9) :=
  (c10_is_enabled_return zeroMem 7 5 9).2 (by decide)

/-- C1 counterexample: pin 7 lies beyond port A's 7 wired pins and is
inaccessible, yet tegra_gpio_set writes its output-value register (claimed
to be refused with a permission/busy error without touching registers),
and tegra_gpio_direction_input reports success rather than an error. -/
theorem c1_counterexample :
    is_gpio_accessible zeroMem 7 = false ∧
    zeroMem 0 (regAddr 7 GPIO_OUT_VAL_REG) = 0 ∧
    (tegra_gpio_set zeroMem 7 1) 0 (regAddr 7 GPIO_OUT_VAL_REG) = 1 ∧
    (tegra_gpio_direction_input zeroMem 7 (-5)).ret = 0 ∧
    (tegra_gpio_set_debounce zeroMem 7 1000).1 = 0 := by
  refine ⟨by decide, rfl, by decide, rfl, rfl⟩

/-- C1 amended: for every pin whose pin-in-port is at or beyond its port's
wired-pin count, is_gpio_accessible is false for any register content and
tegra_gpio_request returns -EBUSY; but the other mutating operations
(set value, set direction input/output, set debounce) perform no
accessibility check: they return success and write the pin's registers
unconditionally, as the final conjunct shows for the output-value
register. -/
theorem c1_amended_inaccessible_gating (pin : Nat) (m : Mem)
    (pret value : Int) (db : Nat)
    (hv : (cinfo (GPIO_PORT pin)).valid_pins ≤ GPIO_PIN pin) :
    is_gpio_accessible m pin = false ∧
    tegra_gpio_request m pret pin = -EBUSY ∧
    (tegra_gpio_direction_input m pin pret).ret = 0 ∧
    (tegra_gpio_direction_output m pin value pret).ret = 0 ∧
    (tegra_gpio_set_debounce m pin db).1 = 0 ∧
    tegra_gpio_readl (tegra_gpio_set m pin 1) pin GPIO_OUT_VAL_REG = 1 := by
  have hacc : is_gpio_accessible m pin = false := by
    unfold is_gpio_accessible
    rw [if_pos hv]
  refine ⟨hacc, ?_, rfl, rfl, rfl, ?_⟩
  · unfold tegra_gpio_request
    rw [hacc]
    rfl
  · unfold tegra_gpio_set
    rw [readl_writel_ne _ _ _ GPIO_OUT_CTRL_REG GPIO_OUT_VAL_REG
        (by norm_num [GPIO_OUT_CTRL_REG])
        (by norm_num [GPIO_OUT_VAL_REG])
        (by norm_num [GPIO_OUT_CTRL_REG, GPIO_OUT_VAL_REG]),
      readl_writel_self]
    norm_num

/-- C1 amended witness at pin 7 on the all-zero register file. -/
theorem c1_amended_inaccessible_gating_witness :
    is_gpio_accessible zeroMem 7 = false ∧
    tegra_gpio_request zeroMem (-5) 7 = -EBUSY ∧
    (tegra_gpio_direction_input zeroMem 7 (-5)).ret = 0 ∧
    (tegra_gpio_direction_output zeroMem 7 1 (-5)).ret = 0 ∧
    (tegra_gpio_set_debounce zeroMem 7 1000).1 = 0 ∧
    tegra_gpio_readl (tegra_gpio_set zeroMem 7 1) 7 GPIO_OUT_VAL_REG = 1 :=
  c1_amended_inaccessible_gating 7 zeroMem (-5) 1 1000 (by decide)

/-- C6 counterexample: with the pin-multiplexing collaborator failing with
-22, both direction changes still return 0, so the collaborator's failure
is not surfaced through the operation's return value. -/
theorem c6_counterexample :
    ((-22 : Int) < 0) ∧
    (tegra_gpio_direction_input zeroMem 0 (-22)).ret = 0 ∧
    (tegra_gpio_direction_output zeroMem 0 1 (-22)).ret = 0 ∧
    ¬(tegra_gpio_direction_input zeroMem 0 (-22)).ret < 0 := by
  refine ⟨by decide, rfl, rfl, by decide⟩

/-- C6 amended: when the pin-multiplexing collaborator rejects a direction
change, the failure is logged, the register state already committed is
kept exactly as committed (it does not depend on the collaborator's
result, so there is no rollback), and the operation returns 0 — the
collaborator's failure is not propagated through the return value. -/
theorem c6_amended_direction_collab (m : Mem) (pin : Nat) (value r : Int) :
    (tegra_gpio_direction_input m pin r).ret = 0 ∧
    (tegra_gpio_direction_input m pin r).logged = decide (r < 0) ∧
    (tegra_gpio_direction_input m pin r).mem =
      (tegra_gpio_direction_input m pin 0).mem ∧
    (tegra_gpio_direction_output m pin value r).ret = 0 ∧
    (tegra_gpio_direction_output m pin value r).logged = decide (r < 0) ∧
    (tegra_gpio_direction_output m pin value r).mem =
      (tegra_gpio_direction_output m pin value 0).mem :=
  ⟨rfl, rfl, rfl, rfl, rfl, rfl⟩

/-- C5: evaluation of tegra_gpio_set_debounce at the failing input (pin 0,
debounce 1000, all registers initially zero). The rounding is as claimed
and the enable bit and threshold are written, but bit 5 (the
debounce-function bit) of the pin's configuration register stays clear:
the source passes GPIO_DEB_FUNC_BIT (0x20) as the register offset of the
read-modify-write instead of as its mask, so the word at offset 0x20 (the
configuration register of the next pin) is modified instead. -/
theorem c5_debounce_divergence :
    DIV_ROUND_UP 0 1000 = 0 ∧
    DIV_ROUND_UP 1 1000 = 1 ∧ DIV_ROUND_UP 1000 1000 = 1 ∧
    DIV_ROUND_UP 1001 1000 = 2 ∧ DIV_ROUND_UP 2000 1000 = 2 ∧
    tegra_gpio_readl (tegra_gpio_set_debounce zeroMem 0 1000).2 0
      GPIO_DBC_THRES_REG = 1 ∧
    (tegra_gpio_readl (tegra_gpio_set_debounce zeroMem 0 1000).2 0
      GPIO_ENB_CONFIG_REG).testBit 0 = true ∧
    (tegra_gpio_readl (tegra_gpio_set_debounce zeroMem 0 1000).2 0
      GPIO_ENB_CONFIG_REG).testBit 5 = false ∧
    tegra_gpio_readl (tegra_gpio_set_debounce zeroMem 0 1000).2 0
      GPIO_DEB_FUNC_BIT = 1 := by
  decide

/-- C8: on an accessible pin whose direction bit is set to output, writing
value 1 and reading back yields 1, for every content of the input-status
register (the register file is universally quantified); and the read
itself selects the output-value register's low bit when the direction bit
is set and the input register's low bit otherwise. -/
theorem c8_output_readback (m : Mem) (pin : Nat)
    (hacc : is_gpio_accessible m pin = true)
    (hdir : (tegra_gpio_readl m pin GPIO_ENB_CONFIG_REG).testBit 1 = true) :
    tegra_gpio_get (tegra_gpio_set m pin 1) pin = 1 ∧
    (∀ m' : Mem, tegra_gpio_get m' pin =
      if (tegra_gpio_readl m' pin GPIO_ENB_CONFIG_REG).testBit 1 = true then
        tegra_gpio_readl m' pin GPIO_OUT_VAL_REG &&& 1
      else
        tegra_gpio_readl m' pin GPIO_INPUT_REG &&& 1) := by
  have hread : ∀ m' : Mem, tegra_gpio_get m' pin =
      if (tegra_gpio_readl m' pin GPIO_ENB_CONFIG_REG).testBit 1 = true then
        tegra_gpio_readl m' pin GPIO_OUT_VAL_REG &&& 1
      else
        tegra_gpio_readl m' pin GPIO_INPUT_REG &&& 1 := by
    intro m'
    unfold tegra_gpio_get GPIO_INOUT_BIT
    by_cases hb : (tegra_gpio_readl m' pin GPIO_ENB_CONFIG_REG).testBit 1 = true
    · rw [if_pos ((and_two_ne_zero _).2 hb), if_pos hb]
    · rw [if_neg (fun hne => hb ((and_two_ne_zero _).1 hne)), if_neg hb]
  refine ⟨?_, hread⟩
  have hcfg : tegra_gpio_readl (tegra_gpio_set m pin 1) pin GPIO_ENB_CONFIG_REG
      = tegra_gpio_readl m pin GPIO_ENB_CONFIG_REG := by
    unfold tegra_gpio_set
    rw [readl_writel_ne _ _ _ GPIO_OUT_CTRL_REG GPIO_ENB_CONFIG_REG
          (by norm_num [GPIO_OUT_CTRL_REG]) (by norm_num [GPIO_ENB_CONFIG_REG])
          (by norm_num [GPIO_OUT_CTRL_REG, GPIO_ENB_CONFIG_REG]),
        readl_writel_ne _ _ _ GPIO_OUT_VAL_REG GPIO_ENB_CONFIG_REG
          (by norm_num [GPIO_OUT_VAL_REG]) (by norm_num [GPIO_ENB_CONFIG_REG])
          (by norm_num [GPIO_OUT_VAL_REG, GPIO_ENB_CONFIG_REG])]
  have hval : tegra_gpio_readl (tegra_gpio_set m pin 1) pin GPIO_OUT_VAL_REG
      = 1 := by
    unfold tegra_gpio_set
    rw [readl_writel_ne _ _ _ GPIO_OUT_CTRL_REG GPIO_OUT_VAL_REG
          (by norm_num [GPIO_OUT_CTRL_REG]) (by norm_num [GPIO_OUT_VAL_REG])
          (by norm_num [GPIO_OUT_CTRL_REG, GPIO_OUT_VAL_REG]),
        show (if (1 : Int) = 0 then (0x0 : Nat) else 0x1) = 1 from by norm_num,
        readl_writel_self]
    norm_num
  rw [hread (tegra_gpio_set m pin 1), if_pos (hcfg ▸ hdir), hval]
  decide

/-- C8 witness: pin 0 configured as an accessible output pin reads back 1
after writing 1. -/
theorem c8_output_readback_witness :
    tegra_gpio_get (tegra_gpio_set outputPinMem 0 1) 0 = 1 :=
  (c8_output_readback outputPinMem 0 (by decide) (by decide)).1

/-- Reduction of tegra_gpio_irq_set_type on a decoded trigger type. -/
lemma set_type_eq (m : Mem) (gpio ty trg lvl : Nat)
    (h : triggerDecode (ty &&& IRQ_TYPE_SENSE_MASK) = some (trg, lvl)) :
    tegra_gpio_irq_set_type m gpio ty =
      ((0 : Int), tegra_gpio_enable
            (tegra_gpio_writel m
              ((tegra_gpio_readl m gpio GPIO_ENB_CONFIG_REG &&& 0xFFFFFFE3)
                ||| (trg <<< 4) ||| (lvl <<< 2)) gpio GPIO_ENB_CONFIG_REG)
            gpio) := by
  unfold tegra_gpio_irq_set_type
  rw [h]
  rfl

/-- Readback of the configuration register after a successful
tegra_gpio_irq_set_type. -/
lemma set_type_cfg_readl (m : Mem) (gpio ty trg lvl : Nat)
    (h : triggerDecode (ty &&& IRQ_TYPE_SENSE_MASK) = some (trg, lvl))
    (htrg : trg < 2) (hlvl : lvl < 4) :
    tegra_gpio_readl (tegra_gpio_irq_set_type m gpio ty).2 gpio
        GPIO_ENB_CONFIG_REG =
      ((((tegra_gpio_readl m gpio GPIO_ENB_CONFIG_REG &&& 0xFFFFFFE3)
          ||| (trg <<< 4) ||| (lvl <<< 2)) &&& 0xFFFFFFFE) ||| 1) := by
  have hp32 : (2 : Nat) ^ 32 = 4294967296 := by norm_num
  set old := tegra_gpio_readl m gpio GPIO_ENB_CONFIG_REG with hold
  have hold_lt : old < 2 ^ 32 := read_lt _ _ _
  have hval_lt : ((old &&& 0xFFFFFFE3) ||| (trg <<< 4) ||| (lvl <<< 2)) < 2 ^ 32 := by
    refine Nat.or_lt_two_pow (Nat.or_lt_two_pow ?_ ?_) ?_
    · exact lt_of_le_of_lt Nat.and_le_left hold_lt
    · rw [Nat.shiftLeft_eq]; omega
    · rw [Nat.shiftLeft_eq]; omega
  rw [set_type_eq m gpio ty trg lvl h]
  show tegra_gpio_readl (tegra_gpio_enable (tegra_gpio_writel m _ gpio
      GPIO_ENB_CONFIG_REG) gpio) gpio GPIO_ENB_CONFIG_REG = _
  unfold tegra_gpio_enable tegra_gpio_update
  rw [readl_writel_self, readl_writel_self]
  rw [Nat.mod_eq_of_lt hval_lt]
  rw [show (0xFFFFFFFF : Nat) ^^^ 0x1 = 0xFFFFFFFE from by decide,
    show (0x1 : Nat) &&& 0x1 = 1 from by decide]
  have hw_lt : (((old &&& 0xFFFFFFE3) ||| (trg <<< 4) ||| (lvl <<< 2))
      &&& 0xFFFFFFFE) ||| 1 < 2 ^ 32 :=
    Nat.or_lt_two_pow (lt_of_le_of_lt Nat.and_le_left hval_lt) (by norm_num)
  rw [Nat.mod_eq_of_lt hw_lt]

/-- C3: the five supported trigger types program the configuration
register's 2-bit trigger-kind field (bits 2-3) and polarity bit (bit 4)
exactly per the table — edge-rising (high, single-edge 2), edge-falling
(low, single-edge 2), edge-both (both-edge 3), level-high (high, level 1),
level-low (low, level 1) — and any other requested type is rejected with
-EINVAL with the register state returned unchanged. -/
theorem c3_trigger_table (m : Mem) (gpio ty : Nat) :
    (ty &&& IRQ_TYPE_SENSE_MASK = IRQ_TYPE_EDGE_RISING →
      (tegra_gpio_irq_set_type m gpio ty).1 = 0 ∧
      ((tegra_gpio_readl (tegra_gpio_irq_set_type m gpio ty).2 gpio
          GPIO_ENB_CONFIG_REG >>> 2) &&& 3) = GPIO_INT_LVL_SINGLE_EDGE_TRIGGER ∧
      ((tegra_gpio_readl (tegra_gpio_irq_set_type m gpio ty).2 gpio
          GPIO_ENB_CONFIG_REG >>> 4) &&& 1) = TRIGGER_LEVEL_HIGH) ∧
    (ty &&& IRQ_TYPE_SENSE_MASK = IRQ_TYPE_EDGE_FALLING →
      (tegra_gpio_irq_set_type m gpio ty).1 = 0 ∧
      ((tegra_gpio_readl (tegra_gpio_irq_set_type m gpio ty).2 gpio
          GPIO_ENB_CONFIG_REG >>> 2) &&& 3) = GPIO_INT_LVL_SINGLE_EDGE_TRIGGER ∧
      ((tegra_gpio_readl (tegra_gpio_irq_set_type m gpio ty).2 gpio
          GPIO_ENB_CONFIG_REG >>> 4) &&& 1) = TRIGGER_LEVEL_LOW) ∧
    (ty &&& IRQ_TYPE_SENSE_MASK = IRQ_TYPE_EDGE_BOTH →
      (tegra_gpio_irq_set_type m gpio ty).1 = 0 ∧
      ((tegra_gpio_readl (tegra_gpio_irq_set_type m gpio ty).2 gpio
          GPIO_ENB_CONFIG_REG >>> 2) &&& 3) = GPIO_INT_LVL_BOTH_EDGE_TRIGGER) ∧
    (ty &&& IRQ_TYPE_SENSE_MASK = IRQ_TYPE_LEVEL_HIGH →
      (tegra_gpio_irq_set_type m gpio ty).1 = 0 ∧
      ((tegra_gpio_readl (tegra_gpio_irq_set_type m gpio ty).2 gpio
          GPIO_ENB_CONFIG_REG >>> 2) &&& 3) = GPIO_INT_LVL_LEVEL_TRIGGER ∧
      ((tegra_gpio_readl (tegra_gpio_irq_set_type m gpio ty).2 gpio
          GPIO_ENB_CONFIG_REG >>> 4) &&& 1) = TRIGGER_LEVEL_HIGH) ∧
    (ty &&& IRQ_TYPE_SENSE_MASK = IRQ_TYPE_LEVEL_LOW →
      (tegra_gpio_irq_set_type m gpio ty).1 = 0 ∧
      ((tegra_gpio_readl (tegra_gpio_irq_set_type m gpio ty).2 gpio
          GPIO_ENB_CONFIG_REG >>> 2) &&& 3) = GPIO_INT_LVL_LEVEL_TRIGGER ∧
      ((tegra_gpio_readl (tegra_gpio_irq_set_type m gpio ty).2 gpio
          GPIO_ENB_CONFIG_REG >>> 4) &&& 1) = TRIGGER_LEVEL_LOW) ∧
    (ty &&& IRQ_TYPE_SENSE_MASK ≠ IRQ_TYPE_EDGE_RISING →
      ty &&& IRQ_TYPE_SENSE_MASK ≠ IRQ_TYPE_EDGE_FALLING →
      ty &&& IRQ_TYPE_SENSE_MASK ≠ IRQ_TYPE_EDGE_BOTH →
      ty &&& IRQ_TYPE_SENSE_MASK ≠ IRQ_TYPE_LEVEL_HIGH →
      ty &&& IRQ_TYPE_SENSE_MASK ≠ IRQ_TYPE_LEVEL_LOW →
      tegra_gpio_irq_set_type m gpio ty = (-EINVAL, m)) := by
  refine ⟨?_, ?_, ?_, ?_, ?_, ?_⟩
  case _ =>
    intro hty
    have hdec : triggerDecode (ty &&& IRQ_TYPE_SENSE_MASK) = some (1, 2) := by
      rw [hty]; rfl
    refine ⟨by rw [set_type_eq m gpio ty 1 2 hdec], ?_, ?_⟩
    · rw [set_type_cfg_readl m gpio ty 1 2 hdec (by norm_num) (by norm_num),
        shr2_and3]
      simp only [Nat.testBit_lor, Nat.testBit_land]
      simp +decide [Nat.testBit_to_div_mod]
    · rw [set_type_cfg_readl m gpio ty 1 2 hdec (by norm_num) (by norm_num),
        shr4_and1]
      simp only [Nat.testBit_lor, Nat.testBit_land]
      simp +decide [Nat.testBit_to_div_mod]
  case _ =>
    intro hty
    have hdec : triggerDecode (ty &&& IRQ_TYPE_SENSE_MASK) = some (0, 2) := by
      rw [hty]; rfl
    refine ⟨by rw [set_type_eq m gpio ty 0 2 hdec], ?_, ?_⟩
    · rw [set_type_cfg_readl m gpio ty 0 2 hdec (by norm_num) (by norm_num),
        shr2_and3]
      simp only [Nat.testBit_lor, Nat.testBit_land]
      simp +decide [Nat.testBit_to_div_mod]
    · rw [set_type_cfg_readl m gpio ty 0 2 hdec (by norm_num) (by norm_num),
        shr4_and1]
      simp only [Nat.testBit_lor, Nat.testBit_land]
      simp +decide [Nat.testBit_to_div_mod]
  case _ =>
    intro hty
    have hdec : triggerDecode (ty &&& IRQ_TYPE_SENSE_MASK) = some (0, 3) := by
      rw [hty]; rfl
    refine ⟨by rw [set_type_eq m gpio ty 0 3 hdec], ?_⟩
    rw [set_type_cfg_readl m gpio ty 0 3 hdec (by norm_num) (by norm_num),
      shr2_and3]
    simp only [Nat.testBit_lor, Nat.testBit_land]
    simp +decide [Nat.testBit_to_div_mod]
  case _ =>
    intro hty
    have hdec : triggerDecode (ty &&& IRQ_TYPE_SENSE_MASK) = some (1, 1) := by
      rw [hty]; rfl
    refine ⟨by rw [set_type_eq m gpio ty 1 1 hdec], ?_, ?_⟩
    · rw [set_type_cfg_readl m gpio ty 1 1 hdec (by norm_num) (by norm_num),
        shr2_and3]
      simp only [Nat.testBit_lor, Nat.testBit_land]
      simp +decide [Nat.testBit_to_div_mod]
    · rw [set_type_cfg_readl m gpio ty 1 1 hdec (by norm_num) (by norm_num),
        shr4_and1]
      simp only [Nat.testBit_lor, Nat.testBit_land]
      simp +decide [Nat.testBit_to_div_mod]
  case _ =>
    intro hty
    have hdec : triggerDecode (ty &&& IRQ_TYPE_SENSE_MASK) = some (0, 1) := by
      rw [hty]; rfl
    refine ⟨by rw [set_type_eq m gpio ty 0 1 hdec], ?_, ?_⟩
    · rw [set_type_cfg_readl m gpio ty 0 1 hdec (by norm_num) (by norm_num),
        shr2_and3]
      simp only [Nat.testBit_lor, Nat.testBit_land]
      simp +decide [Nat.testBit_to_div_mod]
    · rw [set_type_cfg_readl m gpio ty 0 1 hdec (by norm_num) (by norm_num),
        shr4_and1]
      simp only [Nat.testBit_lor, Nat.testBit_land]
      simp +decide [Nat.testBit_to_div_mod]
  case _ =>
    intro h1 h2 h3 h4 h5
    have hdec : triggerDecode (ty &&& IRQ_TYPE_SENSE_MASK) = none := by
      unfold triggerDecode
      rw [if_neg h1, if_neg h2, if_neg h3, if_neg h4, if_neg h5]
    unfold tegra_gpio_irq_set_type
    rw [hdec]

/-- C3 witness: a representative instance of each implication, at pin 0 on
the all-zero register file, with type values 1..4, 8 and the unsupported
value 0. -/
theorem c3_trigger_table_witness :
    ((tegra_gpio_irq_set_type zeroMem 0 1).1 = 0 ∧
      ((tegra_gpio_readl (tegra_gpio_irq_set_type zeroMem 0 1).2 0
          GPIO_ENB_CONFIG_REG >>> 2) &&& 3) = GPIO_INT_LVL_SINGLE_EDGE_TRIGGER ∧
      ((tegra_gpio_readl (tegra_gpio_irq_set_type zeroMem 0 1).2 0
          GPIO_ENB_CONFIG_REG >>> 4) &&& 1) = TRIGGER_LEVEL_HIGH) ∧
    ((tegra_gpio_readl (tegra_gpio_irq_set_type zeroMem 0 2).2 0
        GPIO_ENB_CONFIG_REG >>> 4) &&& 1) = TRIGGER_LEVEL_LOW ∧
    ((tegra_gpio_readl (tegra_gpio_irq_set_type zeroMem 0 3).2 0
        GPIO_ENB_CONFIG_REG >>> 2) &&& 3) = GPIO_INT_LVL_BOTH_EDGE_TRIGGER ∧
    ((tegra_gpio_readl (tegra_gpio_irq_set_type zeroMem 0 4).2 0
        GPIO_ENB_CONFIG_REG >>> 2) &&& 3) = GPIO_INT_LVL_LEVEL_TRIGGER ∧
    ((tegra_gpio_readl (tegra_gpio_irq_set_type zeroMem 0 8).2 0
        GPIO_ENB_CONFIG_REG >>> 4) &&& 1) = TRIGGER_LEVEL_LOW ∧
    tegra_gpio_irq_set_type zeroMem 0 0 = (-EINVAL, zeroMem) :=
  ⟨(c3_trigger_table zeroMem 0 1).1 (by decide),
   ((c3_trigger_table zeroMem 0 2).2.1 (by decide)).2.2,
   ((c3_trigger_table zeroMem 0 3).2.2.1 (by decide)).2,
   ((c3_trigger_table zeroMem 0 4).2.2.2.1 (by decide)).2.1,
   ((c3_trigger_table zeroMem 0 8).2.2.2.2.1 (by decide)).2.2,
   (c3_trigger_table zeroMem 0 0).2.2.2.2.2 (by decide) (by decide)
     (by decide) (by decide) (by decide)⟩

/-- Scan result when no wake-table entry matches: the loop falls through
to -EINVAL. -/
lemma wakeLookup_neg (l : List Int) (i : Nat) (g : Int)
    (h : ∀ x ∈ l, x ≠ g) : wakeLookup l i g = -EINVAL := by
  induction l generalizing i with
  | nil => rfl
  | cons x xs ih =>
    unfold wakeLookup
    rw [if_neg (h x (by simp))]
    exact ih (i + 1) (fun y hy => h y (by simp [hy]))

/-- Scan result when some wake-table entry matches: an index whose entry
is the pin, offset by the loop's starting counter. -/
lemma wakeLookup_pos (l : List Int) (i : Nat) (g : Int)
    (h : ∃ x ∈ l, x = g) :
    ∃ j : Nat, wakeLookup l i g = ((i + j : Nat) : Int) ∧ l.getD j 0 = g := by
  induction l generalizing i with
  | nil => simp at h
  | cons x xs ih =>
    by_cases hx : x = g
    · refine ⟨0, ?_, by simpa using hx⟩
      unfold wakeLookup
      rw [if_pos hx]
      norm_num
    · have h' : ∃ y ∈ xs, y = g := by
        rcases h with ⟨y, hy, hyg⟩
        rcases List.mem_cons.1 hy with rfl | hy'
        · exact absurd hyg hx
        · exact ⟨y, hy', hyg⟩
      rcases ih (i + 1) h' with ⟨j, hj, hg⟩
      refine ⟨j + 1, ?_, by simpa using hg⟩
      unfold wakeLookup
      rw [if_neg hx, hj]
      congr 1
      omega

/-- C7: when no wake slot is assigned to the pin, tegra_gpio_irq_set_wake
returns the not-supported sentinel (-EINVAL, the wake table's absent
marker) without calling the wake-event registry; when the pin is present
in the wake table, the enable is propagated to the registry with a slot
whose table entry is exactly that pin, and the registry's return code is
passed through. -/
theorem c7_set_wake (registry : Nat → Bool → Int) (gpio : Int)
    (enable : Bool) :
    ((∀ x ∈ tegra186_gpio_wakes, x ≠ gpio) →
      tegra_gpio_irq_set_wake registry gpio enable = (-EINVAL, [])) ∧
    ((∃ x ∈ tegra186_gpio_wakes, x = gpio) →
      ∃ s : Nat, tegra186_gpio_wakes.getD s 0 = gpio ∧
        tegra_gpio_irq_set_wake registry gpio enable =
          (registry s enable, [(s, enable)])) := by
  constructor
  · intro h
    unfold tegra_gpio_irq_set_wake tegra186_gpio_to_wake
    rw [wakeLookup_neg _ _ _ h, if_pos (by norm_num [EINVAL])]
  · intro h
    rcases wakeLookup_pos tegra186_gpio_wakes 0 gpio h with ⟨j, hj, hg⟩
    refine ⟨j, hg, ?_⟩
    unfold tegra_gpio_irq_set_wake tegra186_gpio_to_wake
    rw [hj, if_neg (by omega)]
    norm_num

/-- C7 witness: pin 0 has no wake slot and yields (-EINVAL, no registry
calls); pin 6 is wake slot 0 and the registry result and call list are
passed through. -/
theorem c7_set_wake_witness :
    tegra_gpio_irq_set_wake demoRegistry 0 true = (-EINVAL, []) ∧
    ∃ s : Nat, tegra186_gpio_wakes.getD s 0 = 6 ∧
      tegra_gpio_irq_set_wake demoRegistry 6 true =
        (demoRegistry s true, [(s, true)]) :=
  ⟨(c7_set_wake demoRegistry 0 true).1 (by decide),
   (c7_set_wake demoRegistry 6 true).2 ⟨6, by decide, rfl⟩⟩

/-- Soundness of the demultiplexer's port-slot map: a mapped port's table
entry has exactly that slot as its index within the controller, and is a
real table index. -/
lemma port_map_sound {c slot port : Nat} (h : port_map c slot = some port) :
    (cinfo port).cont_index = (slot : Int) ∧ port < 32 := by
  have key : ∀ (l : List Nat) (acc : Option Nat),
      (∀ p, acc = some p → (cinfo p).cont_index = (slot : Int) ∧ p < 32) →
      (∀ i ∈ l, i < 32) →
      ∀ p, l.foldl
          (fun acc i =>
            if (cinfo i).cont_id = (c : Int) ∧
                (cinfo i).cont_index = (slot : Int) then some i else acc)
          acc = some p →
        (cinfo p).cont_index = (slot : Int) ∧ p < 32 := by
    intro l
    induction l with
    | nil => intro acc hacc _ p hp; exact hacc p hp
    | cons i l ih =>
      intro acc hacc hmem p hp
      refine ih _ ?_ (fun j hj => hmem j (List.mem_cons_of_mem _ hj)) p hp
      intro q hq
      replace hq : (if (cinfo i).cont_id = (c : Int) ∧
          (cinfo i).cont_index = (slot : Int) then some i else acc) = some q := hq
      by_cases hc : (cinfo i).cont_id = (c : Int) ∧
          (cinfo i).cont_index = (slot : Int)
      · rw [if_pos hc] at hq
        injection hq with hq
        subst hq
        exact ⟨hc.2, hmem i (by simp)⟩
      · rw [if_neg hc] at hq
        exact hacc q hq
  exact key (List.range 32) none (by simp)
    (fun i hi => List.mem_range.1 hi) port h

/-- Membership in one slot's dispatch segment. -/
lemma mem_dispatchSegment {m : Mem} {c slot p : Nat} :
    p ∈ dispatchSegment m c slot ↔
      ∃ port pin, port_map c slot = some port ∧ pin < 8 ∧
        (portPending m port).testBit pin = true ∧ p = port * 8 + pin := by
  unfold dispatchSegment
  cases h : port_map c slot with
  | none => simp [h]
  | some port =>
    simp only [List.mem_filterMap, List.mem_range, h,
      Option.ite_none_right_eq_some, Option.some.injEq]
    constructor
    · rintro ⟨pin, hpin, hbit, rfl⟩
      exact ⟨port, pin, rfl, hpin, hbit, rfl⟩
    · rintro ⟨port', pin, hport', hpin, hbit, rfl⟩
      subst hport'
      exact ⟨pin, hpin, hbit, rfl⟩

/-- Dispatch key of a pin decomposed as port times 8 plus bit. -/
lemma dispatchKey_mul_add (port pin : Nat) (hpin : pin < 8) :
    dispatchKey (port * 8 + pin) =
      (cinfo port).cont_index * 8 + (pin : Int) := by
  unfold dispatchKey GPIO_PORT GPIO_PIN
  have h1 : (port * 8 + pin) >>> 3 = port := by
    rw [Nat.shiftRight_eq_div_pow]
    norm_num
    omega
  have h2 : (port * 8 + pin) &&& 0x7 = pin := by
    rw [show (0x7 : Nat) = 7 from rfl, and_seven]
    omega
  rw [h1, h2]

/-- Dispatches within one slot are in strictly ascending pin order. -/
lemma pairwise_lt_dispatchSegment (m : Mem) (c slot : Nat) :
    (dispatchSegment m c slot).Pairwise (· < ·) := by
  unfold dispatchSegment
  cases h : port_map c slot with
  | none => simp
  | some port =>
    refine List.Pairwise.filterMap _ ?_ (List.pairwise_lt_range 8)
    intro a b hab x hx y hy
    by_cases ha : (portPending m port).testBit a = true
    · by_cases hb : (portPending m port).testBit b = true
      · simp only [ha, if_pos] at hx
        simp only [hb, if_pos] at hy
        have hxv : x = port * 8 + a := by simpa using hx.symm
        have hyv : y = port * 8 + b := by simpa using hy.symm
        omega
      · simp [hb] at hy
    · simp [ha] at hx

/-- Dispatches within one slot are in strictly ascending key order. -/
lemma pairwise_key_dispatchSegment (m : Mem) (c slot : Nat) :
    (dispatchSegment m c slot).Pairwise
      (fun p q => dispatchKey p < dispatchKey q) := by
  refine List.Pairwise.imp_of_mem ?_ (pairwise_lt_dispatchSegment m c slot)
  intro p q hp hq hpq
  rcases mem_dispatchSegment.1 hp with ⟨port1, pin1, hm1, hpin1, _, rfl⟩
  rcases mem_dispatchSegment.1 hq with ⟨port2, pin2, hm2, hpin2, _, rfl⟩
  have hport : port1 = port2 := by
    have h := hm1.symm.trans hm2
    injection h
  subst hport
  rw [dispatchKey_mul_add _ _ hpin1, dispatchKey_mul_add _ _ hpin2]
  omega

/-- C4: within one demultiplexer invocation the dispatch order is
deterministic — strictly increasing in (port slot within the controller,
bit index) — and for pending bitmap 0b10010001 on global port 2
(controller 3), exactly pins 16, 20 and 23 are dispatched, in that
ascending order, with no other pin of the controller firing. -/
theorem c4_demux_order :
    (∀ (c : Nat) (m : Mem),
      (dispatchList m c).Pairwise (fun p q => dispatchKey p < dispatchKey q)) ∧
    dispatchList demoPendingMem 3 = [16, 20, 23] := by
  constructor
  · intro c m
    unfold dispatchList
    rw [List.pairwise_flatten]
    constructor
    · intro l hl
      rcases List.mem_map.1 hl with ⟨slot, _, rfl⟩
      exact pairwise_key_dispatchSegment m c slot
    · rw [List.pairwise_map]
      refine List.Pairwise.imp_of_mem ?_ (List.pairwise_lt_range 8)
      intro s1 s2 hs1 hs2 hlt x hx y hy
      rcases mem_dispatchSegment.1 hx with ⟨port1, pin1, hm1, hpin1, _, rfl⟩
      rcases mem_dispatchSegment.1 hy with ⟨port2, pin2, hm2, hpin2, _, rfl⟩
      rw [dispatchKey_mul_add _ _ hpin1, dispatchKey_mul_add _ _ hpin2,
        (port_map_sound hm1).1, (port_map_sound hm2).1]
      have hcast : (s1 : Int) < (s2 : Int) := by exact_mod_cast hlt
      omega
  · decide

end Tegra186
